import Mathlib

/-!
# Verification of the Coverbot orchestration engine

A shallow embedding of `src/lib/hopr/core.ts` (the `Coverbot` class): the
inbound-message state machine `handleMessage`, the periodic probe cycle
`_verificationCycle` together with its relay-timeout callback, and the
score/ledger bookkeeping (`loadData` score restore, `_verifyBalance`,
`_verifyTweet`).

JavaScript `Map` objects (`verifiedHoprNodes`, `tweets`, score records) are
embedded as association lists with first-match lookup; the `relayTimeouts`
map is embedded as the list of its keys (the timer values themselves are
never observed other than through `clearTimeout`, which is a no-op on the
modelled state).  External collaborators (the Twitter fetch, the chain
balance query, the ethereum-address derivation) are supplied as oracles,
and a failing attestation fetch is an `Option.none` oracle answer, mirroring
a thrown `FetchError`.  Outbound sends are fire-and-forget in the source
(each `.catch` only logs), so they are recorded in an ordered trace and never
alter control flow.
-/

/-- A HOPR b58 node address (`message.from`, keys of all the maps). -/
abbrev Addr := String

/-! ## Association-list maps (embedding of the JavaScript `Map`s) -/

/-- `Map.get`: first binding of the key, if any. -/
def mapGet (m : List (Addr × α)) (k : Addr) : Option α :=
  match m with
  | [] => none
  | (k₁, v) :: rest => if k₁ = k then some v else mapGet rest k

/-- `Map.set`: replace the binding of the key in place, or append it. -/
def mapSet (m : List (Addr × α)) (k : Addr) (v : α) : List (Addr × α) :=
  match m with
  | [] => [(k, v)]
  | (k₁, v₁) :: rest => if k₁ = k then (k, v) :: rest else (k₁, v₁) :: mapSet rest k v

/-- `Map.delete`: remove every binding of the key. -/
def mapDelete (m : List (Addr × α)) (k : Addr) : List (Addr × α) :=
  match m with
  | [] => []
  | (k₁, v₁) :: rest => if k₁ = k then mapDelete rest k else (k₁, v₁) :: mapDelete rest k

/-- The key-set view of `relayTimeouts`: `Map.set` on a present key leaves the
key set unchanged (the stored timer is replaced), otherwise the key is added. -/
def probeInsert (l : List Addr) (a : Addr) : List Addr :=
  if a ∈ l then l else l ++ [a]

/-- The key-set view of `relayTimeouts.delete`. -/
def probeDelete (l : List Addr) (a : Addr) : List Addr :=
  l.filter (fun x => x ≠ a)

/-! ## Data model -/

/-- The record stored in `verifiedHoprNodes` (`core.ts` lines 608-613). -/
structure HoprNode where
  id : Addr
  tweetId : String
  tweetUrl : String
  address : Addr
deriving DecidableEq

/-- `tweet.status`: the three attestation flags (`core.ts` lines 486-494). -/
structure TweetStatus where
  hasTag : Bool
  hasMention : Bool
  sameNode : Bool
deriving DecidableEq

/-- Modelled from the spec: `TweetStatus.isValid` lives in the Twitter
library, which is not under `src/`; the spec says "validity = logical AND of
the flags required by configuration" with all three flags required. -/
def tweetIsValid (s : TweetStatus) : Bool :=
  s.hasTag && s.hasMention && s.sameNode

/-- The `NodeStates` enumeration (imported from `./state`, used throughout
`handleMessage` and `_verificationCycle`). -/
inductive NodeStates where
  | newUnverifiedNode
  | tweetVerificationInProgress
  | tweetVerificationFailed
  | tweetVerificationSucceeded
  | xdaiBalanceFailed
  | xdaiBalanceSucceeded
  | relayingNodeInProgress
  | relayingNodeFailed
  | relayingNodeSucceded
  | onlineNode
  | verifiedNode
deriving DecidableEq

/-- One outbound send by the bot, tagged by which response template the
source passes to `_sendMessageFromBot`. -/
inductive Sent where
  /-- `NodeStateResponses[s]` sent to `recipient`. -/
  | stateResponse (recipient : Addr) (s : NodeStates)
  /-- `NodeStateResponses[s](balance)` sent to `recipient`. -/
  | stateResponseBalance (recipient : Addr) (s : NodeStates) (balance : ℚ)
  /-- `NodeStateResponses[s](status)` sent to `recipient` (tweet-failure detail). -/
  | stateResponseTweet (recipient : Addr) (s : NodeStates) (status : TweetStatus)
  /-- `BotResponses[BotCommands.status](s)` sent to `recipient`: the status trailer. -/
  | botStatus (recipient : Addr) (s : NodeStates)
  /-- `BotResponses[BotCommands.verify]` sent to `recipient`. -/
  | botVerify (recipient : Addr)
  /-- the "Opened a payment channel to you" message. -/
  | paymentChannelOpened (recipient : Addr)
  /-- the self-addressed relay-test message routed through `hop`. -/
  | relayPackage (recipient : Addr) (hop : Addr)
deriving DecidableEq

/-- The mutable state of a `Coverbot` instance that the claims observe:
`verifiedHoprNodes`, `relayTimeouts` (key set), `tweets`, and the score
record behind `_getHoprAddressScore`/`_setHoprAddressScore`. -/
structure CoverbotState where
  verifiedHoprNodes : List (Addr × HoprNode)
  relayTimeouts : List Addr
  tweets : List (Addr × TweetStatus)
  scores : List (Addr × Nat)
deriving DecidableEq

/-- `_getHoprAddressScore`: a missing record reads as `0`
(`snapshot.val() || 0`, `core.ts` line 216). -/
def getScore (st : CoverbotState) (a : Addr) : Nat :=
  (mapGet st.scores a).getD 0

/-- Configuration and the score-reward constants.  `ScoreRewards` is defined
in `./state`, which is not under `src/`; the spec fixes only that both
rewards are non-negative integers, so they are carried as `Nat` fields. -/
structure Config where
  /-- `this.address`: the bot's own HOPR identity. -/
  address : Addr
  /-- `COVERBOT_DEBUG_MODE`. -/
  debugMode : Bool
  /-- `COVERBOT_XDAI_THRESHOLD`. -/
  threshold : ℚ
  /-- `ScoreRewards.relayed` (the relay reward). -/
  relayedReward : Nat
  /-- `ScoreRewards.verified` (the verified bonus). -/
  verifiedReward : Nat

/-- The result of the `tweet.fetch` + flag checks in `_verifyTweet`:
whether the fetched text passed `hasTag('basodino')`, `hasMention('hoprnet')`
and `hasSameHOPRNode(message.from)`, plus the tweet id and url used by the
ledger upsert. -/
structure FetchedTweet where
  hasTag : Bool
  hasMention : Bool
  sameNode : Bool
  tweetId : String
  tweetUrl : String
deriving DecidableEq

/-- Oracles for the external collaborators of `handleMessage`:
`fetchTweet text = none` means `tweet.fetch` threw a `FetchError`;
`balanceOf` is the xDAI balance read by `_verifyBalance`;
`ethAddressOf` is `_getEthereumAddressFromHOPRAddress`. -/
structure Env where
  fetchTweet : String → Option FetchedTweet
  balanceOf : Addr → ℚ
  ethAddressOf : Addr → Addr

/-- An inbound message (`IMessage`). -/
structure IMessage where
  mfrom : Addr
  text : String

/-- Split a character list at spaces (the token view of a message body). -/
def splitOnSpace : List Char → List (List Char)
  | [] => [[]]
  | c :: rest =>
      let r := splitOnSpace rest
      if c = ' ' then [] :: r
      else (c :: r.headD []) :: r.tail

/-- ASCII lower-casing of one character (for the `/i` regex flag). -/
def asciiLower (c : Char) : Char :=
  if 65 ≤ c.toNat ∧ c.toNat ≤ 90 then Char.ofNat (c.toNat + 32) else c

/-- Case-insensitive list prefix test: is `p` a prefix of the text? -/
def ciPrefix : List Char → List Char → Bool
  | [], _ => true
  | _ :: _, [] => false
  | p :: ps, c :: cs => (asciiLower c = p) && ciPrefix ps cs

/-- Case-insensitive containment of the (lower-case) pattern in the text. -/
def ciContains (pat : List Char) : List Char → Bool
  | [] => ciPrefix pat []
  | c :: cs => ciPrefix pat (c :: cs) || ciContains pat cs

/-- Modelled from the spec: `getHOPRNodeAddressFromContent` lives in
`src/utils/utils`, which is not under `src/`; the spec only says the
round-trip branch "extract[s] the embedded relay target from the body".  It
is modelled as the first whitespace-separated token carrying the HOPR b58
address prefix, or `""` when none is present. -/
def getHOPRNodeAddressFromContent (text : String) : Addr :=
  match (splitOnSpace text.data).find?
      (fun w => decide (w.take 6 = String.toList "16Uiu2")) with
  | some w => String.mk w
  | none => ""

/-- The attestation-URL test `message.text.match(/https:\/\/twitter.com.*?$/i)`
(`core.ts` line 569): the pattern is unanchored, so it holds exactly when the
text contains `https://twitter.com` case-insensitively. -/
def matchesTwitterUrl (text : String) : Bool :=
  ciContains (String.toList "https://twitter.com") text.data

/-- The outcome of one `handleMessage` call: the post state, the ordered
trace of outbound sends, and whether an exception escaped the call
(rejecting its promise). -/
structure HMOut where
  state : CoverbotState
  sent : List Sent
  failed : Bool
deriving DecidableEq

/-- The flag state computed by `_verifyTweet` (`core.ts` lines 484-496): the
constructor-fresh flags are all false, each check only raises its flag,
`COVERBOT_DEBUG_MODE` forces `sameNode` and (via `validateTweetStatus`,
modelled from the spec's debug override) the whole status. -/
def effectiveStatus (cfg : Config) (ft : FetchedTweet) : TweetStatus :=
  if cfg.debugMode then ⟨true, true, true⟩
  else ⟨ft.hasTag, ft.hasMention, ft.sameNode⟩

/-- The probe cancel-and-remove step of the round-trip branch
(`core.ts` lines 527-529): `clearTimeout` on the recovered timer (a no-op on
the modelled state, also when no timer exists) followed by
`relayTimeouts.delete`. -/
def cancelProbe (st : CoverbotState) (a : Addr) : CoverbotState :=
  { st with relayTimeouts := probeDelete st.relayTimeouts a }

/-- The `switch (nodeState)` block plus the final status trailer
(`core.ts` lines 579-638), entered after the tweet stage decided
`nodeState` (and, for a URL match, produced the fetched tweet). -/
def afterTweetStage (cfg : Config) (env : Env) (st : CoverbotState) (m : IMessage)
    (ft? : Option FetchedTweet) (nodeState : NodeStates) (sent₀ : List Sent) : HMOut :=
  match nodeState with
  | NodeStates.newUnverifiedNode =>
      { state := st,
        sent := sent₀ ++ [Sent.stateResponse m.mfrom NodeStates.newUnverifiedNode,
                          Sent.botStatus m.mfrom NodeStates.newUnverifiedNode],
        failed := false }
  | NodeStates.tweetVerificationFailed =>
      { state := st,
        sent := sent₀ ++ [Sent.stateResponseTweet m.mfrom NodeStates.tweetVerificationFailed
                            ((mapGet st.tweets m.mfrom).getD ⟨false, false, false⟩),
                          Sent.botStatus m.mfrom NodeStates.tweetVerificationFailed],
        failed := false }
  | NodeStates.tweetVerificationSucceeded =>
      let sent₁ := sent₀ ++ [Sent.stateResponse m.mfrom NodeStates.tweetVerificationSucceeded]
      let balance := env.balanceOf m.mfrom
      if cfg.threshold ≤ balance then
        -- case NodeStates.xdaiBalanceSucceeded (lines 605-627)
        let ethAddress := env.ethAddressOf m.mfrom
        let node : HoprNode :=
          { id := m.mfrom,
            tweetId := (ft?.map FetchedTweet.tweetId).getD "",
            tweetUrl := (ft?.map FetchedTweet.tweetUrl).getD "",
            address := ethAddress }
        let st₁ := { st with verifiedHoprNodes := mapSet st.verifiedHoprNodes m.mfrom node }
        let score := getScore st₁ m.mfrom
        let st₂ :=
          if score = 0 then
            { st₁ with scores := mapSet st₁.scores m.mfrom cfg.verifiedReward }
          else st₁
        { state := st₂,
          sent := sent₁ ++ [Sent.stateResponseBalance m.mfrom NodeStates.xdaiBalanceSucceeded balance,
                            Sent.botStatus m.mfrom NodeStates.xdaiBalanceSucceeded,
                            Sent.botStatus m.mfrom NodeStates.tweetVerificationSucceeded],
          failed := false }
      else
        -- case NodeStates.xdaiBalanceFailed (lines 599-604)
        { state := st,
          sent := sent₁ ++ [Sent.stateResponseBalance m.mfrom NodeStates.xdaiBalanceFailed balance,
                            Sent.botStatus m.mfrom NodeStates.xdaiBalanceFailed,
                            Sent.botStatus m.mfrom NodeStates.tweetVerificationSucceeded],
          failed := false }
  | other =>
      { state := st, sent := sent₀ ++ [Sent.botStatus m.mfrom other], failed := false }

/-- `handleMessage` (`core.ts` lines 503-639).  Branches, in source order:
the round-trip branch (`from == this.address`), the pending-probe
in-progress branch, then the tweet stage (`_verifyTweet` inlined, including
its `tweets.set` before the fetch and the uncaught `tweet.fetch` rejection)
feeding `afterTweetStage`. -/
def handleMessage (cfg : Config) (env : Env) (st : CoverbotState) (m : IMessage) : HMOut :=
  if m.mfrom = cfg.address then
    -- round-trip success branch (lines 506-544)
    let relayerAddress := getHOPRNodeAddressFromContent m.text
    let st₁ := cancelProbe st relayerAddress
    let score := getScore st₁ relayerAddress
    let st₂ := { st₁ with scores := mapSet st₁.scores relayerAddress (score + cfg.relayedReward) }
    { state := st₂,
      sent := [Sent.stateResponse relayerAddress NodeStates.relayingNodeSucceded,
               Sent.stateResponse relayerAddress NodeStates.verifiedNode],
      failed := false }
  else if st.relayTimeouts.contains m.mfrom then
    -- in-progress branch (lines 546-566)
    { state := st,
      sent := [Sent.stateResponse m.mfrom NodeStates.relayingNodeInProgress],
      failed := false }
  else if matchesTwitterUrl m.text then
    -- tweet stage with URL match (lines 569-574 and _verifyTweet, lines 479-501)
    let sent₀ := [Sent.stateResponse m.mfrom NodeStates.tweetVerificationInProgress]
    let st₀ := { st with tweets := mapSet st.tweets m.mfrom ⟨false, false, false⟩ }
    match env.fetchTweet m.text with
    | none =>
        -- `await tweet.fetch` threw; `//@TODO: Catch error here.` — no catch
        -- exists in `_verifyTweet` or around line 574, so the rejection
        -- escapes `handleMessage` before the switch and the trailer.
        { state := st₀, sent := sent₀, failed := true }
    | some ft =>
        let status := effectiveStatus cfg ft
        let st₁ := { st₀ with tweets := mapSet st₀.tweets m.mfrom status }
        let nodeState :=
          if tweetIsValid status then NodeStates.tweetVerificationSucceeded
          else NodeStates.tweetVerificationFailed
        afterTweetStage cfg env st₁ m (some ft) nodeState sent₀
  else
    afterTweetStage cfg env st m none NodeStates.newUnverifiedNode []

/-! ## The probe cycle and its timeout callback -/

/-- Oracles for one `_verificationCycle` tick:
`randomIndex` is `Math.floor(Math.random() * _verifiedNodes.length)`;
`refetch = none` means the `tweet.fetch`/`getHOPRNode` re-check threw (caught
by the surrounding `try`), `some none` means the extracted address was empty,
`some (some a)` means the re-check produced `_hoprNodeAddress = a`;
`channelOk = false` means one of the awaited channel-opening steps threw
(again caught by the `try`). -/
structure CycleOracle where
  randomIndex : Nat
  refetch : Option (Option Addr)
  channelOk : Bool

/-- The random pick of `_verificationCycle` (`core.ts` lines 364-366):
`_verifiedNodes[randomIndex]`, `undefined` when out of range. -/
def selectedNode (st : CoverbotState) (o : CycleOracle) : Option HoprNode :=
  (st.verifiedHoprNodes.map Prod.snd).get? o.randomIndex

/-- `_verificationCycle` (`core.ts` lines 346-466), at atomic (run-to-
completion) granularity, for ticks past the campaign start (`ready`); the
best-effort `dumpData` and lazy `loadData` touch only external storage.
Returns the post state and the trace of outbound sends. -/
def verificationCycle (cfg : Config) (st : CoverbotState) (o : CycleOracle)
    (ready : Bool) : CoverbotState × List Sent :=
  if !ready then (st, [])
  else
    match selectedNode st o with
    | none => (st, [])        -- `if (!hoprNode)` (line 368)
    | some hoprNode =>
      if st.relayTimeouts.contains hoprNode.id then (st, [])   -- line 373
      else
        match o.refetch with
        | none => (st, [])          -- exception caught at line 458
        | some none => (st, [])     -- `_hoprNodeAddress.length === 0` (line 384)
        | some (some a) =>
          let sent₁ := [Sent.botVerify a, Sent.stateResponse a NodeStates.onlineNode]
          if !o.channelOk then (st, sent₁)   -- await threw mid-startup, caught at line 458
          else
            ({ st with relayTimeouts := probeInsert st.relayTimeouts a },
             sent₁ ++ [Sent.paymentChannelOpened a, Sent.relayPackage cfg.address a])

/-- The relay-timeout callback (`core.ts` lines 430-455): notify
`relayingNodeFailed`, delete the pending-probe entry, nothing else (the
`verifiedHoprNodes.delete` of step 4.1.4 is commented out). -/
def relayTimeoutHandler (st : CoverbotState) (a : Addr) : CoverbotState × List Sent :=
  ({ st with relayTimeouts := probeDelete st.relayTimeouts a },
   [Sent.stateResponse a NodeStates.relayingNodeFailed])

/-- A participant is eligible for probe selection when it is among the
verified nodes and has no pending probe (`core.ts` lines 364-376). -/
def eligible (st : CoverbotState) (a : Addr) : Prop :=
  (mapGet st.verifiedHoprNodes a).isSome ∧ a ∉ st.relayTimeouts

/-! ## The orchestrator as a transition system -/

/-- One atomic operation of the orchestrator: an inbound message, a probe
tick, a relay-timeout firing, or the one-time startup score restore of
`loadData` (`core.ts` lines 253-290: only when the destination score record
does not exist, every id of the source record is written with
`ScoreRewards.verified`). -/
inductive Op where
  | msg (env : Env) (m : IMessage)
  | cycle (o : CycleOracle) (ready : Bool)
  | timeoutFire (a : Addr)
  | restoreScores (ids : List Addr)

/-- Apply one operation to the state. -/
def applyOp (cfg : Config) (st : CoverbotState) : Op → CoverbotState
  | Op.msg env m => (handleMessage cfg env st m).state
  | Op.cycle o ready => (verificationCycle cfg st o ready).1
  | Op.timeoutFire a => (relayTimeoutHandler st a).1
  | Op.restoreScores ids =>
      if st.scores = [] then
        { st with scores := ids.map (fun i => (i, cfg.verifiedReward)) }
      else st

/-- Run a sequence of operations. -/
def runOps (cfg : Config) (ops : List Op) (st : CoverbotState) : CoverbotState :=
  ops.foldl (applyOp cfg) st

/-! ## Probe startup at await granularity

`_verificationCycle` suspends at `await tweet.fetch` (line 381) and again at
the pubkey/`openPaymentChannel` awaits (lines 413-415) before it finally
executes `this.relayTimeouts.set(...)` (line 428).  To examine the race the
spec discusses, each tick of the timer is a task whose atomic segments are
separated by those suspension points; Node's event loop interleaves the
segments of concurrently running ticks. -/

/-- Where a probe-startup task stands: `start` is just before the
pending-probe guard of line 373; `fetching` is suspended at the line 381
`await`; `opening` is suspended at the channel-opening awaits; `done begun`
is finished, with `begun = true` when the task ran its probe startup
(reaching the line 428 insertion) rather than being refused. -/
inductive TickPhase where
  | start
  | fetching
  | opening
  | done (begun : Bool)
deriving DecidableEq

/-- One timer tick in flight: the participant it selected and its phase. -/
structure TickTask where
  target : Addr
  phase : TickPhase
deriving DecidableEq

/-- The probe map together with the timer ticks in flight. -/
structure CycleSystem where
  relayTimeouts : List Addr
  ticks : List TickTask
deriving DecidableEq

/-- Advance one atomic segment of tick `i` (other indices do nothing):
at `start`, run the guard of line 373 and either finish refused or suspend
at the fetch; at `fetching`, run lines 382-411 and suspend at the channel
awaits; at `opening`, run lines 416-456, inserting the pending-probe entry. -/
def stepTick (sys : CycleSystem) (i : Nat) : CycleSystem :=
  match sys.ticks[i]? with
  | none => sys
  | some t =>
    match t.phase with
    | TickPhase.start =>
        if sys.relayTimeouts.contains t.target then
          { sys with ticks := sys.ticks.set i ⟨t.target, TickPhase.done false⟩ }
        else
          { sys with ticks := sys.ticks.set i ⟨t.target, TickPhase.fetching⟩ }
    | TickPhase.fetching =>
        { sys with ticks := sys.ticks.set i ⟨t.target, TickPhase.opening⟩ }
    | TickPhase.opening =>
        { relayTimeouts := probeInsert sys.relayTimeouts t.target,
          ticks := sys.ticks.set i ⟨t.target, TickPhase.done true⟩ }
    | TickPhase.done _ => sys

/-- Run a schedule: a list of task indices, each advancing one segment. -/
def runSched (sys : CycleSystem) (sched : List Nat) : CycleSystem :=
  sched.foldl stepTick sys

/-! ## Map lemmas -/

theorem mapGet_mapSet (m : List (Addr × α)) (k k' : Addr) (v : α) :
    mapGet (mapSet m k v) k' = if k = k' then some v else mapGet m k' := by
  induction m with
  | nil =>
    by_cases h : k = k' <;> simp [mapSet, mapGet, h]
  | cons p rest ih =>
    obtain ⟨k₁, v₁⟩ := p
    by_cases h₁ : k₁ = k
    · subst h₁
      by_cases h₂ : k₁ = k' <;> simp [mapSet, mapGet, h₂]
    · simp only [mapSet, if_neg h₁, mapGet]
      by_cases h₂ : k₁ = k'
      · subst h₂
        have hk : ¬k = k₁ := fun h => h₁ h.symm
        simp [if_pos rfl, if_neg hk]
      · simp [if_neg h₂, ih]

theorem mem_probeDelete (l : List Addr) (a b : Addr) :
    b ∈ probeDelete l a ↔ b ∈ l ∧ b ≠ a := by
  simp [probeDelete, List.mem_filter]

theorem probeDelete_self (l : List Addr) (a : Addr) : a ∉ probeDelete l a := by
  simp [mem_probeDelete]

theorem probeDelete_idem (l : List Addr) (a : Addr) :
    probeDelete (probeDelete l a) a = probeDelete l a :=
  List.filter_eq_self.2 (fun _ hb => (List.mem_filter.1 hb).2)

theorem probeDelete_nodup (l : List Addr) (a : Addr) (h : l.Nodup) :
    (probeDelete l a).Nodup :=
  h.filter _

theorem mem_probeInsert (l : List Addr) (a b : Addr) :
    b ∈ probeInsert l a ↔ b ∈ l ∨ b = a := by
  by_cases h : a ∈ l
  · simp only [probeInsert, if_pos h]
    constructor
    · exact Or.inl
    · rintro (hb | rfl)
      · exact hb
      · exact h
  · simp [probeInsert, if_neg h]

theorem probeInsert_nodup (l : List Addr) (a : Addr) (h : l.Nodup) :
    (probeInsert l a).Nodup := by
  by_cases ha : a ∈ l
  · simpa [probeInsert, if_pos ha] using h
  · simp only [probeInsert, if_neg ha]
    refine List.Nodup.append h (List.nodup_singleton a) ?_
    intro x hx hxa
    rw [List.mem_singleton] at hxa
    exact ha (hxa ▸ hx)

theorem probeDelete_eq_of_not_mem (l : List Addr) (a : Addr) (h : a ∉ l) :
    probeDelete l a = l := by
  refine List.filter_eq_self.2 (fun x hx => ?_)
  exact decide_eq_true (fun hxa => h (hxa ▸ hx))

/-! ## Derived observations on the send trace -/

/-- Whether a send is a `BotCommands.status` trailer. -/
def isBotStatus : Sent → Bool
  | Sent.botStatus _ _ => true
  | _ => false

/-- The number of status trailers in a send trace. -/
def statusCount (l : List Sent) : Nat :=
  (l.filter isBotStatus).length

/-- The number of occurrences of one exact send in a trace. -/
def sendCount (x : Sent) (l : List Sent) : Nat :=
  (l.filter (fun s => s = x)).length

/-- The last send of a trace, if any. -/
def lastSend : List Sent → Option Sent
  | [] => none
  | [x] => some x
  | _ :: y :: rest => lastSend (y :: rest)

/-- The state the tweet stage of `handleMessage` decides for a message that
reaches it (the `nodeState` variable of `core.ts` lines 568-577); for a
fetch failure the stage never produces a state. -/
def tweetStage (cfg : Config) (env : Env) (m : IMessage) : NodeStates :=
  if matchesTwitterUrl m.text then
    match env.fetchTweet m.text with
    | none => NodeStates.tweetVerificationInProgress
    | some ft =>
        if tweetIsValid (effectiveStatus cfg ft) then NodeStates.tweetVerificationSucceeded
        else NodeStates.tweetVerificationFailed
  else NodeStates.newUnverifiedNode

/-! ## Concrete fixtures for witnesses and counterexamples -/

/-- A concrete configuration: bot identity `BOT`, threshold 1 xDAI, relay
reward 10, verified bonus 100, debug off. -/
def cfg₀ : Config := ⟨"BOT", false, 1, 10, 100⟩

/-- An environment whose attestation fetch always succeeds with all flags
raised and whose balance oracle answers 5 xDAI. -/
def envOk : Env :=
  ⟨fun _ => some ⟨true, true, true, "840", "https://twitter.com/a/status/840"⟩,
   fun _ => 5, fun a => a⟩

/-- An environment whose attestation fetch always throws. -/
def envFail : Env := ⟨fun _ => none, fun _ => 5, fun a => a⟩

/-- The empty orchestrator state (fresh constructor, empty database). -/
def st₀ : CoverbotState := ⟨[], [], [], []⟩

/-- A round-trip confirmation: sender is the bot itself, body embeds the
relay target. -/
def msgRT : IMessage := ⟨"BOT", "Relaying package to 16Uiu2XYZ"⟩

/-- An attestation message from a participant. -/
def msgTweet : IMessage := ⟨"16Uiu2SENDER", "https://twitter.com/a/status/840"⟩

/-- A state with a pending probe for the target of `msgRT`. -/
def stProbe : CoverbotState := ⟨[], ["16Uiu2XYZ"], [], []⟩

/-- A state where `16Uiu2XYZ` is verified and has a pending probe. -/
def stVerifiedProbe : CoverbotState :=
  ⟨[("16Uiu2XYZ", ⟨"16Uiu2XYZ", "840", "https://twitter.com/a/status/840", "0xAB"⟩)],
   ["16Uiu2XYZ"], [], [("16Uiu2XYZ", 100)]⟩

/-! ## Claims -/

/-- C6: for every inbound message whose sender equals the bot's own
identity, `handleMessage` performs exactly one reward addition
(`score' = score + ScoreRewards.relayed`) and exactly one probe
cancellation-and-removal for the target address embedded in the message
body, leaves the ledger and tweet maps untouched, sends only the two
round-trip notifications, and returns without entering the attestation or
balance branches. -/
theorem C6_roundtrip_reward_and_cancel (cfg : Config) (env : Env) (st : CoverbotState)
    (m : IMessage) (hfrom : m.mfrom = cfg.address) :
    (handleMessage cfg env st m).state.scores
        = mapSet st.scores (getHOPRNodeAddressFromContent m.text)
            (getScore st (getHOPRNodeAddressFromContent m.text) + cfg.relayedReward) ∧
    (handleMessage cfg env st m).state.relayTimeouts
        = probeDelete st.relayTimeouts (getHOPRNodeAddressFromContent m.text) ∧
    (handleMessage cfg env st m).state.verifiedHoprNodes = st.verifiedHoprNodes ∧
    (handleMessage cfg env st m).state.tweets = st.tweets ∧
    (handleMessage cfg env st m).sent
        = [Sent.stateResponse (getHOPRNodeAddressFromContent m.text)
             NodeStates.relayingNodeSucceded,
           Sent.stateResponse (getHOPRNodeAddressFromContent m.text)
             NodeStates.verifiedNode] ∧
    (handleMessage cfg env st m).failed = false := by
  simp [handleMessage, hfrom, cancelProbe, getScore]

/-- Witness for C6 at the concrete round-trip message `msgRT`. -/
theorem C6_witness :
    msgRT.mfrom = cfg₀.address ∧
    ((handleMessage cfg₀ envOk stProbe msgRT).state.scores
        = mapSet stProbe.scores (getHOPRNodeAddressFromContent msgRT.text)
            (getScore stProbe (getHOPRNodeAddressFromContent msgRT.text) + cfg₀.relayedReward) ∧
     (handleMessage cfg₀ envOk stProbe msgRT).state.relayTimeouts
        = probeDelete stProbe.relayTimeouts (getHOPRNodeAddressFromContent msgRT.text) ∧
     (handleMessage cfg₀ envOk stProbe msgRT).state.verifiedHoprNodes
        = stProbe.verifiedHoprNodes ∧
     (handleMessage cfg₀ envOk stProbe msgRT).state.tweets = stProbe.tweets ∧
     (handleMessage cfg₀ envOk stProbe msgRT).sent
        = [Sent.stateResponse (getHOPRNodeAddressFromContent msgRT.text)
             NodeStates.relayingNodeSucceded,
           Sent.stateResponse (getHOPRNodeAddressFromContent msgRT.text)
             NodeStates.verifiedNode] ∧
     (handleMessage cfg₀ envOk stProbe msgRT).failed = false) :=
  ⟨rfl, C6_roundtrip_reward_and_cancel cfg₀ envOk stProbe msgRT rfl⟩

/-- C10: for every inbound message whose sender equals the bot's own
identity, the relay reward is applied to the address extracted from the
message text even when no pending probe exists for that address, and the
cancellation of the missing timer is a no-op on the probe map. -/
theorem C10_reward_without_pending_probe (cfg : Config) (env : Env) (st : CoverbotState)
    (m : IMessage) (hfrom : m.mfrom = cfg.address)
    (hnp : getHOPRNodeAddressFromContent m.text ∉ st.relayTimeouts) :
    getScore (handleMessage cfg env st m).state (getHOPRNodeAddressFromContent m.text)
        = getScore st (getHOPRNodeAddressFromContent m.text) + cfg.relayedReward ∧
    (handleMessage cfg env st m).state.relayTimeouts = st.relayTimeouts := by
  constructor
  · simp [handleMessage, hfrom, cancelProbe, getScore, mapGet_mapSet]
  · simp [handleMessage, hfrom, cancelProbe, probeDelete_eq_of_not_mem _ _ hnp]

/-- Witness for C10: the empty state has no pending probe for the target,
yet the reward is applied. -/
theorem C10_witness :
    msgRT.mfrom = cfg₀.address ∧
    getHOPRNodeAddressFromContent msgRT.text ∉ st₀.relayTimeouts ∧
    (getScore (handleMessage cfg₀ envOk st₀ msgRT).state
         (getHOPRNodeAddressFromContent msgRT.text)
        = getScore st₀ (getHOPRNodeAddressFromContent msgRT.text) + cfg₀.relayedReward ∧
     (handleMessage cfg₀ envOk st₀ msgRT).state.relayTimeouts = st₀.relayTimeouts) :=
  ⟨rfl, by decide,
   C10_reward_without_pending_probe cfg₀ envOk st₀ msgRT rfl (by decide)⟩

/-- C8: when a probe's deadline elapses without a round trip, the timeout
callback sends exactly one failure notification to the participant and
removes the pending-probe entry, while the score record, the
verified-participants map and the tweet map are unchanged, so a verified
participant is again eligible for selection on the next tick. -/
theorem C8_timeout_frame (st : CoverbotState) (a : Addr)
    (hv : (mapGet st.verifiedHoprNodes a).isSome) :
    (relayTimeoutHandler st a).2 = [Sent.stateResponse a NodeStates.relayingNodeFailed] ∧
    (relayTimeoutHandler st a).1.relayTimeouts = probeDelete st.relayTimeouts a ∧
    a ∉ (relayTimeoutHandler st a).1.relayTimeouts ∧
    (relayTimeoutHandler st a).1.scores = st.scores ∧
    (relayTimeoutHandler st a).1.verifiedHoprNodes = st.verifiedHoprNodes ∧
    (relayTimeoutHandler st a).1.tweets = st.tweets ∧
    eligible (relayTimeoutHandler st a).1 a :=
  ⟨rfl, rfl, probeDelete_self _ _, rfl, rfl, rfl, hv, probeDelete_self _ _⟩

/-- Witness for C8: a verified participant with a pending probe, after the
timeout fires. -/
theorem C8_witness :
    (mapGet stVerifiedProbe.verifiedHoprNodes "16Uiu2XYZ").isSome ∧
    ((relayTimeoutHandler stVerifiedProbe "16Uiu2XYZ").2
        = [Sent.stateResponse "16Uiu2XYZ" NodeStates.relayingNodeFailed] ∧
     (relayTimeoutHandler stVerifiedProbe "16Uiu2XYZ").1.relayTimeouts
        = probeDelete stVerifiedProbe.relayTimeouts "16Uiu2XYZ" ∧
     "16Uiu2XYZ" ∉ (relayTimeoutHandler stVerifiedProbe "16Uiu2XYZ").1.relayTimeouts ∧
     (relayTimeoutHandler stVerifiedProbe "16Uiu2XYZ").1.scores = stVerifiedProbe.scores ∧
     (relayTimeoutHandler stVerifiedProbe "16Uiu2XYZ").1.verifiedHoprNodes
        = stVerifiedProbe.verifiedHoprNodes ∧
     (relayTimeoutHandler stVerifiedProbe "16Uiu2XYZ").1.tweets = stVerifiedProbe.tweets ∧
     eligible (relayTimeoutHandler stVerifiedProbe "16Uiu2XYZ").1 "16Uiu2XYZ") :=
  ⟨by decide, C8_timeout_frame stVerifiedProbe "16Uiu2XYZ" (by decide)⟩

/-- C5 counterexample: handling a round-trip confirmation for `16Uiu2XYZ`
removes its pending probe; handling the same confirmation a second time —
after the probe was already cancelled — applies the reward again (the score
goes 0 → 10 → 20) and re-sends both the success and the score
notifications, so the claim that no second reward and no duplicate
notifications can occur is false. -/
theorem C5_counterexample :
    (handleMessage cfg₀ envOk stProbe msgRT).state.relayTimeouts = [] ∧
    getScore (handleMessage cfg₀ envOk stProbe msgRT).state "16Uiu2XYZ" = 10 ∧
    getScore (handleMessage cfg₀ envOk
        (handleMessage cfg₀ envOk stProbe msgRT).state msgRT).state "16Uiu2XYZ" = 20 ∧
    (handleMessage cfg₀ envOk
        (handleMessage cfg₀ envOk stProbe msgRT).state msgRT).sent
      = [Sent.stateResponse "16Uiu2XYZ" NodeStates.relayingNodeSucceded,
         Sent.stateResponse "16Uiu2XYZ" NodeStates.verifiedNode] :=
  ⟨rfl, rfl, rfl, rfl⟩

/-- C5 (amended): the cancel-and-remove step itself is idempotent —
cancelling a participant's probe timer a second time is a no-op on the
probe map — and the cancellation step on its own never changes any score,
ledger entry, or tweet record; the reward and its notifications, however,
are re-applied by each round-trip confirmation handled, not guarded by the
cancellation. -/
theorem C5_cancel_idempotent (st : CoverbotState) (a : Addr) :
    cancelProbe (cancelProbe st a) a = cancelProbe st a ∧
    (cancelProbe st a).scores = st.scores ∧
    (cancelProbe st a).verifiedHoprNodes = st.verifiedHoprNodes ∧
    (cancelProbe st a).tweets = st.tweets := by
  refine ⟨?_, rfl, rfl, rfl⟩
  simp [cancelProbe, probeDelete_idem]

/-- C3 counterexample: for a message that is neither a round-trip
confirmation nor an in-progress duplicate, the claim of exactly one final
status notification regardless of internal failures is false both ways: a
valid attestation with sufficient balance receives two status trailers
(`core.ts` lines 629 and 635), and an attestation whose fetch throws
receives none (the rejection escapes before line 635). -/
theorem C3_counterexample :
    (¬ msgTweet.mfrom = cfg₀.address) ∧
    st₀.relayTimeouts.contains msgTweet.mfrom = false ∧
    statusCount (handleMessage cfg₀ envOk st₀ msgTweet).sent = 2 ∧
    (handleMessage cfg₀ envFail st₀ msgTweet).failed = true ∧
    statusCount (handleMessage cfg₀ envFail st₀ msgTweet).sent = 0 :=
  ⟨by decide, rfl, rfl, rfl, rfl⟩

/-- C3 (amended): for every inbound message that is neither a round-trip
confirmation nor an in-progress duplicate, provided the attestation fetch
does not throw, `handleMessage` completes normally and sends a status
trailer carrying the tweet-stage state as its last message, after all
branch-specific notifications; messages whose attestation is valid (and
which therefore reach the balance check) receive one additional status
trailer, carrying the balance-check state, just before the final one —
one trailer in all other branches. -/
theorem C3_status_trailer (cfg : Config) (env : Env) (st : CoverbotState) (m : IMessage)
    (h1 : ¬ m.mfrom = cfg.address)
    (h2 : st.relayTimeouts.contains m.mfrom = false)
    (h3 : matchesTwitterUrl m.text = true → (env.fetchTweet m.text).isSome) :
    (handleMessage cfg env st m).failed = false ∧
    lastSend (handleMessage cfg env st m).sent
      = some (Sent.botStatus m.mfrom (tweetStage cfg env m)) ∧
    statusCount (handleMessage cfg env st m).sent
      = (if tweetStage cfg env m = NodeStates.tweetVerificationSucceeded then 2 else 1) := by
  have hmem : m.mfrom ∉ st.relayTimeouts := by simpa using h2
  by_cases hurl : matchesTwitterUrl m.text = true
  · obtain ⟨ft, hft⟩ := Option.isSome_iff_exists.1 (h3 hurl)
    by_cases hval : tweetIsValid (effectiveStatus cfg ft) = true
    · by_cases hbal : cfg.threshold ≤ env.balanceOf m.mfrom
      · simp [handleMessage, h1, hmem, hurl, hft, hval, hbal, afterTweetStage,
              tweetStage, statusCount, isBotStatus, lastSend]
      · simp [handleMessage, h1, hmem, hurl, hft, hval, hbal, afterTweetStage,
              tweetStage, statusCount, isBotStatus, lastSend]
    · simp [handleMessage, h1, hmem, hurl, hft, hval, afterTweetStage,
            tweetStage, statusCount, isBotStatus, lastSend]
  · simp [handleMessage, h1, hmem, hurl, afterTweetStage,
          tweetStage, statusCount, isBotStatus, lastSend]

/-- Witness for C3 (amended) at the concrete valid attestation `msgTweet`
against `envOk`: the trailer carries the succeeded tweet stage and two
status trailers are sent. -/
theorem C3_status_trailer_witness :
    (¬ msgTweet.mfrom = cfg₀.address) ∧
    st₀.relayTimeouts.contains msgTweet.mfrom = false ∧
    (matchesTwitterUrl msgTweet.text = true → (envOk.fetchTweet msgTweet.text).isSome) ∧
    ((handleMessage cfg₀ envOk st₀ msgTweet).failed = false ∧
     lastSend (handleMessage cfg₀ envOk st₀ msgTweet).sent
       = some (Sent.botStatus msgTweet.mfrom (tweetStage cfg₀ envOk msgTweet)) ∧
     statusCount (handleMessage cfg₀ envOk st₀ msgTweet).sent
       = (if tweetStage cfg₀ envOk msgTweet = NodeStates.tweetVerificationSucceeded
          then 2 else 1)) :=
  ⟨by decide, rfl, fun _ => rfl,
   C3_status_trailer cfg₀ envOk st₀ msgTweet (by decide) rfl (fun _ => rfl)⟩

/-- C7: for every inbound message with a valid attestation: when the
sender's balance meets the threshold, a ledger entry for the sender is
created and the score is set to the verified bonus exactly when the prior
score was zero (otherwise the score record is unchanged), with exactly one
success notification carrying the balance; when the balance is below the
threshold, no ledger entry is created, the score record is unchanged, and
exactly one failure notification carrying the balance is sent. -/
theorem C7_balance_gate (cfg : Config) (env : Env) (st : CoverbotState) (m : IMessage)
    (ft : FetchedTweet)
    (h1 : ¬ m.mfrom = cfg.address)
    (h2 : st.relayTimeouts.contains m.mfrom = false)
    (h3 : matchesTwitterUrl m.text = true)
    (h4 : env.fetchTweet m.text = some ft)
    (h5 : tweetIsValid (effectiveStatus cfg ft) = true) :
    (cfg.threshold ≤ env.balanceOf m.mfrom →
        mapGet (handleMessage cfg env st m).state.verifiedHoprNodes m.mfrom
          = some ⟨m.mfrom, ft.tweetId, ft.tweetUrl, env.ethAddressOf m.mfrom⟩ ∧
        (handleMessage cfg env st m).state.scores
          = (if getScore st m.mfrom = 0
             then mapSet st.scores m.mfrom cfg.verifiedReward
             else st.scores) ∧
        sendCount (Sent.stateResponseBalance m.mfrom NodeStates.xdaiBalanceSucceeded
              (env.balanceOf m.mfrom)) (handleMessage cfg env st m).sent = 1) ∧
    (¬ cfg.threshold ≤ env.balanceOf m.mfrom →
        (handleMessage cfg env st m).state.verifiedHoprNodes = st.verifiedHoprNodes ∧
        (handleMessage cfg env st m).state.scores = st.scores ∧
        sendCount (Sent.stateResponseBalance m.mfrom NodeStates.xdaiBalanceFailed
              (env.balanceOf m.mfrom)) (handleMessage cfg env st m).sent = 1) := by
  have hmem : m.mfrom ∉ st.relayTimeouts := by simpa using h2
  constructor
  · intro hbal
    refine ⟨?_, ?_, ?_⟩
    · by_cases hscore : (mapGet st.scores m.mfrom).getD 0 = 0 <;>
        simp [handleMessage, h1, hmem, h3, h4, h5, hbal, afterTweetStage,
              getScore, hscore, mapGet_mapSet]
    · by_cases hscore : (mapGet st.scores m.mfrom).getD 0 = 0 <;>
        simp [handleMessage, h1, hmem, h3, h4, h5, hbal, afterTweetStage,
              getScore, hscore]
    · simp [handleMessage, h1, hmem, h3, h4, h5, hbal, afterTweetStage, sendCount]
  · intro hbal
    refine ⟨?_, ?_, ?_⟩
    · simp [handleMessage, h1, hmem, h3, h4, h5, hbal, afterTweetStage]
    · simp [handleMessage, h1, hmem, h3, h4, h5, hbal, afterTweetStage]
    · simp [handleMessage, h1, hmem, h3, h4, h5, hbal, afterTweetStage, sendCount]

/-- Witness for C7: the valid attestation `msgTweet` with balance 5 against
threshold 1 (the meets-threshold half holds at this input). -/
theorem C7_witness :
    (¬ msgTweet.mfrom = cfg₀.address) ∧
    st₀.relayTimeouts.contains msgTweet.mfrom = false ∧
    matchesTwitterUrl msgTweet.text = true ∧
    envOk.fetchTweet msgTweet.text
      = some ⟨true, true, true, "840", "https://twitter.com/a/status/840"⟩ ∧
    tweetIsValid (effectiveStatus cfg₀ ⟨true, true, true, "840",
      "https://twitter.com/a/status/840"⟩) = true ∧
    (cfg₀.threshold ≤ envOk.balanceOf msgTweet.mfrom →
        mapGet (handleMessage cfg₀ envOk st₀ msgTweet).state.verifiedHoprNodes msgTweet.mfrom
          = some ⟨msgTweet.mfrom, "840", "https://twitter.com/a/status/840",
                  envOk.ethAddressOf msgTweet.mfrom⟩ ∧
        (handleMessage cfg₀ envOk st₀ msgTweet).state.scores
          = (if getScore st₀ msgTweet.mfrom = 0
             then mapSet st₀.scores msgTweet.mfrom cfg₀.verifiedReward
             else st₀.scores) ∧
        sendCount (Sent.stateResponseBalance msgTweet.mfrom NodeStates.xdaiBalanceSucceeded
              (envOk.balanceOf msgTweet.mfrom)) (handleMessage cfg₀ envOk st₀ msgTweet).sent = 1) :=
  ⟨by decide, rfl, by decide, rfl, rfl,
   (C7_balance_gate cfg₀ envOk st₀ msgTweet _ (by decide) rfl (by decide) rfl rfl).1⟩

/-- C4: evaluation at the failing input.  For a message matching the
attestation-URL pattern whose fetch throws, `handleMessage` ends with the
exception escaping (`failed = true`): the rejection is not caught at the
call site (`_verifyTweet` carries the source comment
`//@TODO: Catch error here.` and `handleMessage` line 574 has no
try/catch), no verification-failure outcome is produced, and the only send
is the preceding "verifying" notification — no status trailer at all. -/
theorem C4_fetch_failure_escapes :
    (handleMessage cfg₀ envFail st₀ msgTweet).failed = true ∧
    (handleMessage cfg₀ envFail st₀ msgTweet).sent
      = [Sent.stateResponse "16Uiu2SENDER" NodeStates.tweetVerificationInProgress] ∧
    statusCount (handleMessage cfg₀ envFail st₀ msgTweet).sent = 0 ∧
    (handleMessage cfg₀ envFail st₀ msgTweet).state.scores = st₀.scores ∧
    (handleMessage cfg₀ envFail st₀ msgTweet).state.verifiedHoprNodes
      = st₀.verifiedHoprNodes :=
  ⟨rfl, rfl, rfl, rfl, rfl⟩

/-! ## Structural lemmas on the probe map across operations -/

theorem afterTweetStage_relayTimeouts (cfg : Config) (env : Env) (st : CoverbotState)
    (m : IMessage) (ft? : Option FetchedTweet) (ns : NodeStates) (s₀ : List Sent) :
    (afterTweetStage cfg env st m ft? ns s₀).state.relayTimeouts = st.relayTimeouts := by
  cases ns <;> try rfl
  simp only [afterTweetStage]
  split_ifs <;> rfl

theorem handleMessage_relayTimeouts (cfg : Config) (env : Env) (st : CoverbotState)
    (m : IMessage) :
    (handleMessage cfg env st m).state.relayTimeouts = st.relayTimeouts ∨
    (handleMessage cfg env st m).state.relayTimeouts
      = probeDelete st.relayTimeouts (getHOPRNodeAddressFromContent m.text) := by
  by_cases h1 : m.mfrom = cfg.address
  · exact Or.inr (by simp [handleMessage, h1, cancelProbe])
  · left
    by_cases h2 : st.relayTimeouts.contains m.mfrom = true
    · have hmem2 : m.mfrom ∈ st.relayTimeouts := by simpa using h2
      simp [handleMessage, h1, hmem2]
    · have hmem : m.mfrom ∉ st.relayTimeouts := by simpa using h2
      by_cases h3 : matchesTwitterUrl m.text = true
      · cases hf : env.fetchTweet m.text with
        | none => simp [handleMessage, h1, hmem, h3, hf]
        | some ft => simp [handleMessage, h1, hmem, h3, hf, afterTweetStage_relayTimeouts]
      · simp [handleMessage, h1, hmem, h3, afterTweetStage_relayTimeouts]

theorem verificationCycle_state (cfg : Config) (st : CoverbotState) (o : CycleOracle)
    (ready : Bool) :
    (verificationCycle cfg st o ready).1 = st ∨
    ∃ a, (verificationCycle cfg st o ready).1
      = { st with relayTimeouts := probeInsert st.relayTimeouts a } := by
  cases ready
  · exact Or.inl rfl
  · cases hsel : selectedNode st o with
    | none => simp [verificationCycle, hsel]
    | some node =>
      by_cases hcont : node.id ∈ st.relayTimeouts
      · simp [verificationCycle, hsel, hcont]
      · rcases href : o.refetch with _ | (_ | a)
        · simp [verificationCycle, hsel, hcont, href]
        · simp [verificationCycle, hsel, hcont, href]
        · cases hch : o.channelOk
          · simp [verificationCycle, hsel, hcont, href, hch]
          · simp only [verificationCycle, hsel, hcont, href, hch]
            right
            exact ⟨a, by simp [hcont]⟩

theorem applyOp_relayTimeouts_nodup (cfg : Config) (st : CoverbotState) (op : Op)
    (h : st.relayTimeouts.Nodup) : (applyOp cfg st op).relayTimeouts.Nodup := by
  cases op with
  | msg env m =>
      rcases handleMessage_relayTimeouts cfg env st m with he | he <;>
        simp only [applyOp, he]
      · exact h
      · exact probeDelete_nodup _ _ h
  | cycle o ready =>
      rcases verificationCycle_state cfg st o ready with he | ⟨a, he⟩ <;>
        simp only [applyOp, he]
      · exact h
      · exact probeInsert_nodup _ _ h
  | timeoutFire a => exact probeDelete_nodup _ _ h
  | restoreScores ids =>
      simp only [applyOp]
      split_ifs <;> exact h

/-! ## Score monotonicity lemmas -/

theorem afterTweetStage_getScore_mono (cfg : Config) (env : Env) (st : CoverbotState)
    (m : IMessage) (ft? : Option FetchedTweet) (ns : NodeStates) (s₀ : List Sent)
    (a : Addr) :
    getScore st a ≤ getScore (afterTweetStage cfg env st m ft? ns s₀).state a := by
  cases ns <;> simp only [afterTweetStage] <;> try exact le_refl _
  by_cases hbal : cfg.threshold ≤ env.balanceOf m.mfrom
  · by_cases hsc : (mapGet st.scores m.mfrom).getD 0 = 0
    · by_cases hma : m.mfrom = a
      · subst hma
        simp [getScore, hbal, hsc, mapGet_mapSet]
      · simp [getScore, hbal, hsc, mapGet_mapSet, hma]
    · simp [getScore, hbal, hsc]
  · simp [getScore, hbal]

theorem handleMessage_getScore_mono (cfg : Config) (env : Env) (st : CoverbotState)
    (m : IMessage) (a : Addr) :
    getScore st a ≤ getScore (handleMessage cfg env st m).state a := by
  by_cases h1 : m.mfrom = cfg.address
  · by_cases hta : getHOPRNodeAddressFromContent m.text = a
    · simp [handleMessage, h1, cancelProbe, getScore, mapGet_mapSet, hta]
    · simp [handleMessage, h1, cancelProbe, getScore, mapGet_mapSet, hta]
  · by_cases h2 : st.relayTimeouts.contains m.mfrom = true
    · have hmem2 : m.mfrom ∈ st.relayTimeouts := by simpa using h2
      simp [handleMessage, h1, hmem2]
    · have hmem : m.mfrom ∉ st.relayTimeouts := by simpa using h2
      by_cases h3 : matchesTwitterUrl m.text = true
      · cases hf : env.fetchTweet m.text with
        | none => simp [handleMessage, h1, hmem, h3, hf, getScore]
        | some ft =>
            have key := afterTweetStage_getScore_mono cfg env { st with tweets := mapSet (mapSet st.tweets m.mfrom ⟨false, false, false⟩) m.mfrom (effectiveStatus cfg ft) } m (some ft) (if tweetIsValid (effectiveStatus cfg ft) then NodeStates.tweetVerificationSucceeded else NodeStates.tweetVerificationFailed) [Sent.stateResponse m.mfrom NodeStates.tweetVerificationInProgress] a
            simpa [handleMessage, h1, hmem, h3, hf, getScore] using key
      · have key := afterTweetStage_getScore_mono cfg env st m none
          NodeStates.newUnverifiedNode [] a
        simpa [handleMessage, h1, hmem, h3, getScore] using key

theorem applyOp_getScore_mono (cfg : Config) (st : CoverbotState) (op : Op) (a : Addr) :
    getScore st a ≤ getScore (applyOp cfg st op) a := by
  cases op with
  | msg env m => exact handleMessage_getScore_mono cfg env st m a
  | cycle o ready =>
      rcases verificationCycle_state cfg st o ready with he | ⟨b, he⟩ <;>
        simp [applyOp, he, getScore]
  | timeoutFire b => exact le_refl _
  | restoreScores ids =>
      simp only [applyOp]
      split_ifs with hempty
      · simp [getScore, hempty, mapGet]
      · exact le_refl _

/-- A message from a participant with a pending probe. -/
def msgDup : IMessage := ⟨"16Uiu2XYZ", "hello"⟩

/-- The cycle oracle selecting index 0 with a successful re-check naming
`16Uiu2XYZ` and a successful channel opening. -/
def oracleXYZ : CycleOracle := ⟨0, some (some "16Uiu2XYZ"), true⟩

/-- C2: in every reachable state of the orchestrator (any operation sequence
from a state whose probe map has no duplicate keys), each participant
address has at most one pending relay probe; a probe-cycle tick whose
selected participant already has a pending probe is refused without state
change or sends, and an inbound message from an address with a pending
probe is answered with the in-progress reply alone, without state change. -/
theorem C2_at_most_one_probe :
    (∀ (cfg : Config) (ops : List Op) (st : CoverbotState),
        st.relayTimeouts.Nodup →
        ∀ a, (runOps cfg ops st).relayTimeouts.count a ≤ 1) ∧
    (∀ (cfg : Config) (st : CoverbotState) (o : CycleOracle) (ready : Bool)
        (node : HoprNode),
        selectedNode st o = some node →
        node.id ∈ st.relayTimeouts →
        verificationCycle cfg st o ready = (st, [])) ∧
    (∀ (cfg : Config) (env : Env) (st : CoverbotState) (m : IMessage),
        ¬ m.mfrom = cfg.address →
        m.mfrom ∈ st.relayTimeouts →
        handleMessage cfg env st m
          = ⟨st, [Sent.stateResponse m.mfrom NodeStates.relayingNodeInProgress], false⟩) := by
  refine ⟨?_, ?_, ?_⟩
  · intro cfg ops st h a
    have : (runOps cfg ops st).relayTimeouts.Nodup := by
      induction ops generalizing st with
      | nil => exact h
      | cons op rest ih => exact ih (applyOp cfg st op) (applyOp_relayTimeouts_nodup cfg st op h)
    exact List.nodup_iff_count_le_one.1 this a
  · intro cfg st o ready node hsel hmem
    cases ready
    · rfl
    · simp [verificationCycle, hsel, hmem]
  · intro cfg env st m h1 hmem
    simp [handleMessage, h1, hmem]

/-- Witness for C2 at concrete inputs: a run of one timeout firing from
`stProbe`; a tick of `stVerifiedProbe` selecting the participant whose
probe is pending; and the message `msgDup` from an address with a pending
probe. -/
theorem C2_witness :
    (stProbe.relayTimeouts.Nodup ∧
     (runOps cfg₀ [Op.timeoutFire "16Uiu2ABC"] stProbe).relayTimeouts.count "16Uiu2XYZ" ≤ 1) ∧
    (selectedNode stVerifiedProbe oracleXYZ
        = some ⟨"16Uiu2XYZ", "840", "https://twitter.com/a/status/840", "0xAB"⟩ ∧
     "16Uiu2XYZ" ∈ stVerifiedProbe.relayTimeouts ∧
     verificationCycle cfg₀ stVerifiedProbe oracleXYZ true = (stVerifiedProbe, [])) ∧
    ((¬ msgDup.mfrom = cfg₀.address) ∧
     msgDup.mfrom ∈ stProbe.relayTimeouts ∧
     handleMessage cfg₀ envOk stProbe msgDup
       = ⟨stProbe, [Sent.stateResponse msgDup.mfrom NodeStates.relayingNodeInProgress], false⟩) :=
  ⟨⟨by decide, C2_at_most_one_probe.1 cfg₀ [Op.timeoutFire "16Uiu2ABC"] stProbe (by decide) _⟩,
   ⟨rfl, by decide,
    C2_at_most_one_probe.2.1 cfg₀ stVerifiedProbe oracleXYZ true _ rfl (by decide)⟩,
   ⟨by decide, by decide,
    C2_at_most_one_probe.2.2 cfg₀ envOk stProbe msgDup (by decide) (by decide)⟩⟩

/-- C9: for every participant and every sequence of orchestrator operations
(message handling, probe cycle ticks, timeout firings, the startup score
restore), the participant's stored score is non-decreasing: no operation
ever decrements it or resets it to a lower value. -/
theorem C9_score_monotone (cfg : Config) (ops : List Op) (st : CoverbotState) (a : Addr) :
    getScore st a ≤ getScore (runOps cfg ops st) a := by
  induction ops generalizing st with
  | nil => exact le_refl _
  | cons op rest ih =>
      exact le_trans (applyOp_getScore_mono cfg st op a) (ih (applyOp cfg st op))

/-- The interleaving in which two timer ticks have both selected
`16Uiu2XYZ` before either recorded a pending probe. -/
def sysRace : CycleSystem :=
  ⟨[], [⟨"16Uiu2XYZ", TickPhase.start⟩, ⟨"16Uiu2XYZ", TickPhase.start⟩]⟩

/-- C1 counterexample: from an empty probe map, two timer ticks that both
selected `16Uiu2XYZ` can interleave across the `await` suspension points of
probe startup (`tweet.fetch` at line 381, the channel opening at lines
413-415) so that both pass the pending-probe guard and both run probe
startup to its final segment — both ticks begin a probe for the same
participant address, because the probe-map insertion (line 428) happens
only after those asynchronous steps, not synchronously before them. -/
theorem C1_counterexample :
    (runSched sysRace [0, 1, 0, 1, 0, 1]).ticks
      = [⟨"16Uiu2XYZ", TickPhase.done true⟩, ⟨"16Uiu2XYZ", TickPhase.done true⟩] := rfl

/-- C1 (amended): the pending-probe entry is recorded only in the final
segment of probe startup, after the asynchronous steps: a tick that passes
the guard suspends at the attestation fetch with no entry recorded yet, so
only a tick whose guard runs after another probe's entry was recorded is
refused without touching the probe map; a tick at the final segment does
record the entry. -/
theorem C1_insert_after_awaits (sys : CycleSystem) (i : Nat) (t : TickTask)
    (hget : sys.ticks[i]? = some t) :
    (t.phase = TickPhase.start → t.target ∈ sys.relayTimeouts →
        (stepTick sys i).relayTimeouts = sys.relayTimeouts ∧
        (stepTick sys i).ticks = sys.ticks.set i ⟨t.target, TickPhase.done false⟩) ∧
    (t.phase = TickPhase.start → t.target ∉ sys.relayTimeouts →
        t.target ∉ (stepTick sys i).relayTimeouts ∧
        (stepTick sys i).ticks = sys.ticks.set i ⟨t.target, TickPhase.fetching⟩) ∧
    (t.phase = TickPhase.opening → t.target ∈ (stepTick sys i).relayTimeouts) := by
  refine ⟨?_, ?_, ?_⟩
  · intro hph hmem
    simp [stepTick, hget, hph, hmem]
  · intro hph hmem
    simp [stepTick, hget, hph, hmem]
  · intro hph
    simp [stepTick, hget, hph, mem_probeInsert]

/-- Witness for C1 (amended): a single tick at the guard whose target
already has a recorded probe is refused. -/
theorem C1_insert_after_awaits_witness :
    (⟨["16Uiu2XYZ"], [⟨"16Uiu2XYZ", TickPhase.start⟩]⟩ : CycleSystem).ticks[0]?
        = some ⟨"16Uiu2XYZ", TickPhase.start⟩ ∧
    (((⟨"16Uiu2XYZ", TickPhase.start⟩ : TickTask).phase = TickPhase.start →
        "16Uiu2XYZ" ∈ (⟨["16Uiu2XYZ"], [⟨"16Uiu2XYZ", TickPhase.start⟩]⟩ : CycleSystem).relayTimeouts →
        (stepTick ⟨["16Uiu2XYZ"], [⟨"16Uiu2XYZ", TickPhase.start⟩]⟩ 0).relayTimeouts
            = (⟨["16Uiu2XYZ"], [⟨"16Uiu2XYZ", TickPhase.start⟩]⟩ : CycleSystem).relayTimeouts ∧
        (stepTick ⟨["16Uiu2XYZ"], [⟨"16Uiu2XYZ", TickPhase.start⟩]⟩ 0).ticks
            = (⟨["16Uiu2XYZ"], [⟨"16Uiu2XYZ", TickPhase.start⟩]⟩ : CycleSystem).ticks.set 0
                ⟨"16Uiu2XYZ", TickPhase.done false⟩) ∧
     ((⟨"16Uiu2XYZ", TickPhase.start⟩ : TickTask).phase = TickPhase.start →
        "16Uiu2XYZ" ∉ (⟨["16Uiu2XYZ"], [⟨"16Uiu2XYZ", TickPhase.start⟩]⟩ : CycleSystem).relayTimeouts →
        "16Uiu2XYZ" ∉ (stepTick ⟨["16Uiu2XYZ"], [⟨"16Uiu2XYZ", TickPhase.start⟩]⟩ 0).relayTimeouts ∧
        (stepTick ⟨["16Uiu2XYZ"], [⟨"16Uiu2XYZ", TickPhase.start⟩]⟩ 0).ticks
            = (⟨["16Uiu2XYZ"], [⟨"16Uiu2XYZ", TickPhase.start⟩]⟩ : CycleSystem).ticks.set 0
                ⟨"16Uiu2XYZ", TickPhase.fetching⟩) ∧
     ((⟨"16Uiu2XYZ", TickPhase.start⟩ : TickTask).phase = TickPhase.opening →
        "16Uiu2XYZ" ∈ (stepTick ⟨["16Uiu2XYZ"], [⟨"16Uiu2XYZ", TickPhase.start⟩]⟩ 0).relayTimeouts)) :=
  ⟨rfl, C1_insert_after_awaits ⟨["16Uiu2XYZ"], [⟨"16Uiu2XYZ", TickPhase.start⟩]⟩ 0
      ⟨"16Uiu2XYZ", TickPhase.start⟩ rfl⟩
